import Mathlib

/-!
Shallow embedding of the deterministic core of the AI_Yoga_Coach repository:
  * `src/utils/cycle_utils.py`  — `calculate_cycle_phase`
  * `src/core/safety_rules.py`  — `SafetyRules.get_allowed_pose_types`,
    `SafetyRules.get_forbidden_pose_types`, `SafetyRules.get_intensity_level`
  * `src/core/body_engine.py`   — `BodyState`, `BodyStateEngine.process`
  * `src/agents/planner.py`     — `PlannerAgent._generate_rule_based`
  * `src/agents/sequencer.py`   — `SequencerAgent._select_cool_down_poses`

Python integers are embedded as `Int`; Python lists as `List`; `dict.get`
defaults as `Option.getD`; a raised exception as `Except.error`.
Calendar dates are embedded as proleptic-Gregorian (year, month, day)
triples with an ordinal-day conversion matching `datetime.toordinal`
(only date differences are consumed by the code).  `datetime.now()` is
modelled as an explicit `today` argument to `process`.
-/

/-- The 17 pose-type tags of `safety_rules.py` (`PoseType` literal). -/
inductive PoseType where
  | restorative
  | gentle_stretch
  | standing
  | balance
  | backbend
  | forward_fold
  | twist
  | inversion
  | arm_balance
  | strong_core
  | hip_opener
  | breathing
  | seated
  | side_bend
  | yin
  | somatic
  | mobility
deriving DecidableEq, Fintype, Repr

/-- The four cycle phases of `cycle_utils.py` (`CyclePhase` literal). -/
inductive CyclePhase where
  | menstrual
  | follicular
  | ovulation
  | luteal
deriving DecidableEq, Fintype, Repr

/-- The intensity levels of `safety_rules.py` (`Literal["low","moderate","high"]`). -/
inductive Intensity where
  | low
  | moderate
  | high
deriving DecidableEq, Fintype, Repr

/-- A calendar date, the parsed form of a `"YYYY-MM-DD"` string. -/
structure Date where
  y : Nat
  m : Nat
  d : Nat
deriving DecidableEq, Repr

/-- Gregorian leap-year test, as in Python's `calendar`/`datetime`. -/
def isLeap (y : Nat) : Bool :=
  y % 4 == 0 && (y % 100 != 0 || y % 400 == 0)

/-- Days in a month of a given year (for date well-formedness). -/
def daysInMonth (y m : Nat) : Nat :=
  if m = 2 then (if isLeap y then 29 else 28)
  else if m = 4 ∨ m = 6 ∨ m = 9 ∨ m = 11 then 30
  else 31

/-- Cumulative day count before month `m` in a non-leap year. -/
def cumDaysBeforeMonth (m : Nat) : Nat :=
  match m with
  | 1 => 0 | 2 => 31 | 3 => 59 | 4 => 90 | 5 => 120 | 6 => 151
  | 7 => 181 | 8 => 212 | 9 => 243 | 10 => 273 | 11 => 304 | 12 => 334
  | _ => 0

/-- Proleptic-Gregorian ordinal of a date (0 for 0001-01-01); differences
of ordinals equal `(datetime_a - datetime_b).days` for midnight datetimes. -/
def toOrdinal (dt : Date) : Nat :=
  365 * (dt.y - 1) + (dt.y - 1) / 4 - (dt.y - 1) / 100 + (dt.y - 1) / 400
    + cumDaysBeforeMonth dt.m
    + (if 2 < dt.m ∧ isLeap dt.y then 1 else 0)
    + (dt.d - 1)

/-- Ordinal as an integer, so that date differences may be negative. -/
def toOrdinalZ (dt : Date) : Int := (toOrdinal dt : Int)

/-- Well-formed `"YYYY-MM-DD"` date: exactly the strings `datetime.strptime`
accepts with that format. -/
def validDate (dt : Date) : Prop :=
  1 ≤ dt.y ∧ dt.y ≤ 9999 ∧ 1 ≤ dt.m ∧ dt.m ≤ 12 ∧ 1 ≤ dt.d ∧ dt.d ≤ daysInMonth dt.y dt.m

instance (dt : Date) : Decidable (validDate dt) := by
  unfold validDate; infer_instance

/-- `days_since_period % cycle_length` with Python `%` semantics
(`Int.fmod` is floor-modulus, exactly Python's `%` for a nonzero divisor). -/
def day_in_cycle_of (last_period_date : Date) (cycle_length : Int) (current : Date) : Int :=
  Int.fmod (toOrdinalZ current - toOrdinalZ last_period_date) cycle_length

/-- The phase branch of `calculate_cycle_phase` (`cycle_utils.py` lines 36-43). -/
def phase_of_day (day_in_cycle : Int) : CyclePhase :=
  if day_in_cycle ≤ 5 then .menstrual
  else if day_in_cycle ≤ 13 then .follicular
  else if day_in_cycle ≤ 16 then .ovulation
  else .luteal

/-- `calculate_cycle_phase` (`src/utils/cycle_utils.py`).  A zero
`cycle_length` raises `ZeroDivisionError` in Python at the `%`;
embedded as `Except.error`. -/
def calculate_cycle_phase (last_period_date : Date) (cycle_length : Int)
    (current_date : Date) : Except String (CyclePhase × Int) :=
  if cycle_length = 0 then
    .error "ZeroDivisionError: integer modulo by zero"
  else
    let day := day_in_cycle_of last_period_date cycle_length current_date
    .ok (phase_of_day day, day)

namespace SafetyRules

/-- The fixed "very gentle" allow-list of the `pain >= 4` pass. -/
def veryGentle : List PoseType :=
  [.restorative, .gentle_stretch, .breathing, .yin, .somatic, .mobility]

/-- `SafetyRules.get_allowed_pose_types` (`src/core/safety_rules.py`).
The source reads `state.cycle_phase`, `state.energy_level`,
`state.pain_level`; those three fields are passed explicitly.  Python's
`list(set(allowed))` is embedded as `List.dedup` (membership-faithful;
Python's set order is unspecified and no claim depends on order). -/
def get_allowed_pose_types (phase : CyclePhase) (energy pain : Int) : List PoseType :=
  let base : List PoseType :=
    match phase with
    | .menstrual =>
        [.restorative, .gentle_stretch, .breathing, .forward_fold, .seated,
         .yin, .somatic, .mobility]
          ++ (if energy ≤ 2 then [.hip_opener] else [])
    | .follicular =>
        [.standing, .balance, .gentle_stretch, .breathing, .hip_opener,
         .forward_fold, .twist, .seated, .side_bend, .yin, .somatic, .mobility]
          ++ (if energy ≥ 3 then [.backbend, .arm_balance] else [])
    | .ovulation =>
        [.standing, .balance, .backbend, .forward_fold, .twist, .arm_balance,
         .strong_core, .hip_opener, .breathing, .gentle_stretch, .seated,
         .side_bend, .yin, .somatic, .mobility]
          ++ (if energy ≥ 4 then [.inversion] else [])
    | .luteal =>
        [.gentle_stretch, .breathing, .forward_fold, .hip_opener, .twist,
         .restorative, .seated, .yin, .somatic, .mobility]
          ++ (if energy ≥ 3 then [.standing, .balance, .side_bend] else [])
  let afterPain : List PoseType :=
    if pain ≥ 4 then
      base.filter (fun pt => decide (pt ∈ veryGentle))
    else if pain ≥ 3 then
      base.filter (fun pt =>
        decide (pt ∉ ([.inversion, .arm_balance, .strong_core, .backbend] : List PoseType)))
    else base
  let afterEnergy : List PoseType :=
    if energy ≤ 1 then [.restorative, .breathing]
    else if energy ≤ 2 then
      afterPain.filter (fun pt =>
        decide (pt ∉ ([.inversion, .arm_balance, .strong_core] : List PoseType)))
    else afterPain
  afterEnergy.dedup

/-- The 17-element `all_types` list of `get_forbidden_pose_types`, in source order. -/
def all_types : List PoseType :=
  [.restorative, .gentle_stretch, .standing, .balance,
   .backbend, .forward_fold, .twist, .inversion,
   .arm_balance, .strong_core, .hip_opener, .breathing,
   .seated, .side_bend, .yin, .somatic, .mobility]

/-- `SafetyRules.get_forbidden_pose_types` (`src/core/safety_rules.py`). -/
def get_forbidden_pose_types (phase : CyclePhase) (energy pain : Int) : List PoseType :=
  all_types.filter (fun pt => decide (pt ∉ get_allowed_pose_types phase energy pain))

/-- `SafetyRules.get_intensity_level` (`src/core/safety_rules.py`). -/
def get_intensity_level (phase : CyclePhase) (energy pain : Int) : Intensity :=
  if pain ≥ 4 then .low
  else if pain ≥ 3 then .low
  else if energy ≤ 1 then .low
  else if energy ≤ 2 then .low
  else if phase = .menstrual then .low
  else if phase = .ovulation ∧ energy ≥ 4 then .high
  else if phase = .follicular ∧ energy ≥ 3 then .moderate
  else if phase = .luteal then (if energy ≤ 2 then .low else .moderate)
  else .moderate

end SafetyRules

/-- `BodyState` dataclass (`src/core/body_engine.py`). -/
structure BodyState where
  cycle_phase : CyclePhase
  day_in_cycle : Int
  energy_level : Int
  pain_level : Int
  duration_minutes : Int
  intensity : Intensity
  allowed_pose_types : List PoseType
  forbidden_pose_types : List PoseType
  last_period_date : Date
  cycle_length : Int
  training_focus : List PoseType
deriving DecidableEq, Repr

/-- The raw input dict of `BodyStateEngine.process`; absent keys are `none`
(defaults are applied inside `process`, as `dict.get` does).  A missing or
empty (falsy) `last_period_date` is `none`. -/
structure UserInput where
  last_period_date : Option Date
  cycle_length : Option Int
  energy : Option Int
  pain : Option Int
  duration : Option Int
  training_focus : Option (List String)
deriving Repr

/-- The `valid_focus` membership test of `process`: maps the seven valid
focus strings to their pose types and drops everything else. -/
def focusOfString (s : String) : Option PoseType :=
  if s = "seated" then some .seated
  else if s = "forward_fold" then some .forward_fold
  else if s = "backbend" then some .backbend
  else if s = "twist" then some .twist
  else if s = "side_bend" then some .side_bend
  else if s = "balance" then some .balance
  else if s = "inversion" then some .inversion
  else none

/-- `BodyStateEngine.process` (`src/core/body_engine.py`).  `today` models
`datetime.now()` inside `calculate_cycle_phase` (called there without an
explicit current date).  The only `raise` in the source is
`ValueError("last_period_date is required")` for a falsy date. -/
def process (u : UserInput) (today : Date) : Except String BodyState :=
  match u.last_period_date with
  | none => .error "last_period_date is required"
  | some lastDate =>
    let cycle_length := u.cycle_length.getD 28
    let energy := u.energy.getD 3
    let pain := u.pain.getD 1
    let duration := u.duration.getD 20
    match calculate_cycle_phase lastDate cycle_length today with
    | .error e => .error e
    | .ok (cycle_phase, day_in_cycle) =>
      let training_focus := (u.training_focus.getD []).filterMap focusOfString
      let allowed0 := SafetyRules.get_allowed_pose_types cycle_phase energy pain
      let forbidden := SafetyRules.get_forbidden_pose_types cycle_phase energy pain
      let intensity := SafetyRules.get_intensity_level cycle_phase energy pain
      let allowed :=
        if training_focus.isEmpty then allowed0
        else
          let focused := allowed0.filter (fun t => decide (t ∈ training_focus))
          if focused.isEmpty then allowed0 else focused
      .ok {
        cycle_phase := cycle_phase
        day_in_cycle := day_in_cycle
        energy_level := energy
        pain_level := pain
        duration_minutes := duration
        intensity := intensity
        allowed_pose_types := allowed
        forbidden_pose_types := forbidden
        last_period_date := lastDate
        cycle_length := cycle_length
        training_focus := training_focus
      }

/-- Display string of a phase (Python f-string interpolation of the literal). -/
def CyclePhase.toStr : CyclePhase → String
  | .menstrual => "menstrual"
  | .follicular => "follicular"
  | .ovulation => "ovulation"
  | .luteal => "luteal"

/-- Display string of an intensity level. -/
def Intensity.toStr : Intensity → String
  | .low => "low"
  | .moderate => "moderate"
  | .high => "high"

/-- One entry of the `"structure"` list built by `_generate_rule_based`. -/
structure StructureSection where
  sectionName : String
  minutes : Int
  description : String
deriving DecidableEq, Repr

/-- The dict returned by `_generate_rule_based` (`"structure"`,
`"total_minutes"`, `"rationale"` keys). -/
structure FlowStructure where
  sections : List StructureSection
  total_minutes : Int
  rationale : String
deriving DecidableEq, Repr

/-- `PlannerAgent._generate_rule_based` (`src/agents/planner.py`). -/
def _generate_rule_based (body_state : BodyState) : FlowStructure :=
  let duration := body_state.duration_minutes
  let intensity := body_state.intensity
  let phase := body_state.cycle_phase
  let breathing_time : Int := if duration ≤ 15 then 2 else if duration ≤ 30 then 3 else 5
  let cool_down_time : Int := if duration ≤ 15 then 3 else if duration ≤ 30 then 5 else 7
  let main_time : Int := duration - breathing_time - cool_down_time
  let main_section_type : String :=
    if intensity = .low then "gentle_flow"
    else if intensity = .high then "dynamic_flow"
    else "moderate_flow"
  { sections :=
      [ { sectionName := "breathing", minutes := breathing_time,
          description := "Centering and breath awareness to begin the practice" },
        { sectionName := main_section_type, minutes := main_time,
          description := "Main practice adapted for " ++ phase.toStr
            ++ " phase with " ++ intensity.toStr ++ " intensity" },
        { sectionName := "cool_down", minutes := cool_down_time,
          description := "Restorative poses and gentle release" } ]
    total_minutes := duration
    rationale := "Designed for " ++ phase.toStr ++ " phase with " ++ intensity.toStr
      ++ " intensity, respecting energy level " ++ toString body_state.energy_level
      ++ "/5 and pain level " ++ toString body_state.pain_level ++ "/5" }

/-- A candidate pose dict as consumed by the sequencer: `"name"`,
`"types"` (list of tag strings), `"duration_suggestion"` (display string,
default `"1 min"` applied upstream of this embedding). -/
structure Pose where
  name : String
  types : List String
  duration_suggestion : String
deriving DecidableEq, Repr

/-- One pick dict emitted by the sequencer's cool-down selection. -/
structure Pick where
  pose : String
  duration : String
  notes : String
deriving DecidableEq, Repr

/-- The cool-down tag list of `_select_cool_down_poses`. -/
def cool_down_types : List String := ["restorative", "gentle_stretch", "forward_fold"]

/-- `SequencerAgent._select_cool_down_poses` (`src/agents/sequencer.py`). -/
def _select_cool_down_poses (poses : List Pose) (minutes : Int) : List Pick :=
  let cool_down_poses :=
    poses.filter (fun p => p.types.any (fun pt => decide (pt ∈ cool_down_types)))
  let selected :=
    (cool_down_poses.take 3).map (fun p =>
      { pose := p.name, duration := p.duration_suggestion, notes := "Rest and release" })
  if selected.isEmpty then
    [ { pose := "child_pose", duration := toString minutes ++ " min",
        notes := "Final resting pose" } ]
  else selected

instance {ε α : Type} [DecidableEq ε] [DecidableEq α] : DecidableEq (Except ε α) := fun a b =>
  match a, b with
  | .ok x, .ok y =>
      if h : x = y then .isTrue (congrArg _ h)
      else .isFalse (fun hc => h (Except.ok.inj hc))
  | .error x, .error y =>
      if h : x = y then .isTrue (congrArg _ h)
      else .isFalse (fun hc => h (Except.error.inj hc))
  | .ok _, .error _ => .isFalse (fun hc => Except.noConfusion hc)
  | .error _, .ok _ => .isFalse (fun hc => Except.noConfusion hc)

/-- Variant of `get_intensity_level` whose luteal branch returns `moderate`
unconditionally (the `low if energy <= 2` arm removed); used to state that
the removed arm is unreachable. -/
def get_intensity_level_noLutealLowArm (phase : CyclePhase) (energy pain : Int) : Intensity :=
  if pain ≥ 4 then .low
  else if pain ≥ 3 then .low
  else if energy ≤ 1 then .low
  else if energy ≤ 2 then .low
  else if phase = .menstrual then .low
  else if phase = .ovulation ∧ energy ≥ 4 then .high
  else if phase = .follicular ∧ energy ≥ 3 then .moderate
  else if phase = .luteal then .moderate
  else .moderate

/-- A `BodyState` with a 4-minute requested duration, on which the planner
emits a negative main-section budget. -/
def shortDurationState : BodyState :=
  { cycle_phase := .menstrual
    day_in_cycle := 0
    energy_level := 3
    pain_level := 1
    duration_minutes := 4
    intensity := .low
    allowed_pose_types := []
    forbidden_pose_types := []
    last_period_date := ⟨2026, 1, 20⟩
    cycle_length := 28
    training_focus := [] }

/-- A `BodyState` with a 15-minute requested duration (tier boundary). -/
def shortDurationState15 : BodyState :=
  { shortDurationState with duration_minutes := 15, intensity := .moderate }

/-- The phase boundaries as the spec states them: day 0-5 menstrual, 6-13
follicular, 14-16 ovulation, 17 and above luteal. -/
def phaseOfDayIndexSpec (i : Int) : CyclePhase :=
  if 0 ≤ i ∧ i ≤ 5 then .menstrual
  else if 6 ≤ i ∧ i ≤ 13 then .follicular
  else if 14 ≤ i ∧ i ≤ 16 then .ovulation
  else .luteal

/-- The fully-evaluated `BodyState` that `process` returns on a present
`last_period_date` and nonzero cycle length (characterised by `process_ok`). -/
def processResult (u : UserInput) (lastDate today : Date) : BodyState :=
  let cycle_length := u.cycle_length.getD 28
  let energy := u.energy.getD 3
  let pain := u.pain.getD 1
  let duration := u.duration.getD 20
  let day_in_cycle := day_in_cycle_of lastDate cycle_length today
  let cycle_phase := phase_of_day day_in_cycle
  let training_focus := (u.training_focus.getD []).filterMap focusOfString
  let allowed0 := SafetyRules.get_allowed_pose_types cycle_phase energy pain
  let allowed :=
    if training_focus.isEmpty then allowed0
    else
      let focused := allowed0.filter (fun t => decide (t ∈ training_focus))
      if focused.isEmpty then allowed0 else focused
  { cycle_phase := cycle_phase
    day_in_cycle := day_in_cycle
    energy_level := energy
    pain_level := pain
    duration_minutes := duration
    intensity := SafetyRules.get_intensity_level cycle_phase energy pain
    allowed_pose_types := allowed
    forbidden_pose_types := SafetyRules.get_forbidden_pose_types cycle_phase energy pain
    last_period_date := lastDate
    cycle_length := cycle_length
    training_focus := training_focus }

/-- The invariant claimed of every `BodyState` produced by `process`:
allowed and forbidden pose types are disjoint and jointly cover the full
17-tag universe. -/
def bodyStateInvariantHolds (st : BodyState) : Prop :=
  (∀ t : PoseType, ¬(t ∈ st.allowed_pose_types ∧ t ∈ st.forbidden_pose_types))
  ∧ (∀ t : PoseType, t ∈ st.allowed_pose_types ∨ t ∈ st.forbidden_pose_types)

instance (st : BodyState) : Decidable (bodyStateInvariantHolds st) := by
  unfold bodyStateInvariantHolds; infer_instance

/-- The invariant read through the `Except` wrapper (vacuous on errors). -/
def exceptInvariant : Except String BodyState → Prop
  | .ok st => bodyStateInvariantHolds st
  | .error _ => True

instance : (r : Except String BodyState) → Decidable (exceptInvariant r)
  | .ok st => inferInstanceAs (Decidable (bodyStateInvariantHolds st))
  | .error _ => inferInstanceAs (Decidable True)

/-- A valid input whose training focus narrows the allowed set: follicular
phase (day 8), energy 3, pain 1, focus `["twist"]`. -/
def focusNarrowInput : UserInput :=
  { last_period_date := some ⟨2026, 1, 20⟩
    cycle_length := some 28
    energy := some 3
    pain := some 1
    duration := some 20
    training_focus := some ["twist"] }

/-- An input that is invalid per the spec (energy 6, outside 1-5) but has a
present `last_period_date`. -/
def invalidEnergyInput : UserInput :=
  { last_period_date := some ⟨2026, 1, 20⟩
    cycle_length := some 28
    energy := some 6
    pain := some 1
    duration := some 20
    training_focus := none }

/-- A valid input with an empty training focus, used as witness input. -/
def emptyFocusInput : UserInput :=
  { last_period_date := some ⟨2026, 1, 20⟩
    cycle_length := some 28
    energy := some 2
    pain := some 3
    duration := some 20
    training_focus := none }

/-- A valid input whose training focus `["breathing"]` is drawn from the
category universe and intersects the derived allowed set, but lies outside
the engine's seven-tag `valid_focus` filter. -/
def breathingFocusInput : UserInput :=
  { last_period_date := some ⟨2026, 1, 20⟩
    cycle_length := some 28
    energy := some 3
    pain := some 1
    duration := some 20
    training_focus := some ["breathing"] }

/-- The allowed pose types of a `process` result (empty on an error). -/
def allowedOfResult : Except String BodyState → List PoseType
  | .ok st => st.allowed_pose_types
  | .error _ => []

/-- Claim C9: for every phase, energy in 1-5 and pain in 1-5, the allowed
list returned by `get_allowed_pose_types` contains the `breathing` tag (in
particular it is never empty). -/
theorem allowed_contains_breathing (phase : CyclePhase) (energy pain : Int)
    (he1 : 1 ≤ energy) (he5 : energy ≤ 5) (hp1 : 1 ≤ pain) (hp5 : pain ≤ 5) :
    PoseType.breathing ∈ SafetyRules.get_allowed_pose_types phase energy pain := by
  interval_cases energy <;> interval_cases pain <;> cases phase <;> decide

/-- Witness for C9 at phase luteal, energy 3, pain 2. -/
theorem allowed_contains_breathing_witness :
    1 ≤ (3 : Int) ∧ (3 : Int) ≤ 5 ∧ 1 ≤ (2 : Int) ∧ (2 : Int) ≤ 5 ∧
      PoseType.breathing ∈ SafetyRules.get_allowed_pose_types .luteal 3 2 :=
  ⟨by decide, by decide, by decide, by decide,
    allowed_contains_breathing .luteal 3 2 (by decide) (by decide) (by decide) (by decide)⟩

/-- Claim C3: for every phase and every energy in 1-5, the allowed set at
pain 4 is never larger than the allowed set at pain 2 (the returned lists
are deduplicated, so `length` is the set's size). -/
theorem allowed_size_pain4_le_pain2 (phase : CyclePhase) (energy : Int)
    (he1 : 1 ≤ energy) (he5 : energy ≤ 5) :
    (SafetyRules.get_allowed_pose_types phase energy 4).length ≤
      (SafetyRules.get_allowed_pose_types phase energy 2).length := by
  interval_cases energy <;> cases phase <;> decide

/-- Witness for C3 at phase ovulation, energy 5. -/
theorem allowed_size_pain4_le_pain2_witness :
    1 ≤ (5 : Int) ∧ (5 : Int) ≤ 5 ∧
      (SafetyRules.get_allowed_pose_types .ovulation 5 4).length ≤
        (SafetyRules.get_allowed_pose_types .ovulation 5 2).length :=
  ⟨by decide, by decide, allowed_size_pain4_le_pain2 .ovulation 5 (by decide) (by decide)⟩

/-- Claim C10: in the luteal phase, `get_intensity_level` returns `moderate`
whenever pain is at most 2 and energy is at least 3; any state with energy
at most 2 already returns `low` from the earlier energy check, so the
luteal branch's `low if energy <= 2` arm is unreachable (the function is
unchanged when that arm is replaced by `moderate`). -/
theorem luteal_intensity_spec (energy pain : Int) :
    (pain ≤ 2 → 3 ≤ energy →
      SafetyRules.get_intensity_level .luteal energy pain = .moderate)
    ∧ (energy ≤ 2 → SafetyRules.get_intensity_level .luteal energy pain = .low)
    ∧ SafetyRules.get_intensity_level .luteal energy pain
        = get_intensity_level_noLutealLowArm .luteal energy pain := by
  unfold SafetyRules.get_intensity_level get_intensity_level_noLutealLowArm
  refine ⟨?_, ?_, ?_⟩ <;> intros <;> split_ifs <;> simp_all <;> omega

/-- Witness for C10 at energy 4, pain 1 (and energy 2, pain 1 for the low arm). -/
theorem luteal_intensity_spec_witness :
    ((1 : Int) ≤ 2 ∧ (3 : Int) ≤ 4 ∧
      SafetyRules.get_intensity_level .luteal 4 1 = .moderate)
    ∧ ((2 : Int) ≤ 2 ∧ SafetyRules.get_intensity_level .luteal 2 1 = .low) :=
  ⟨⟨by decide, by decide, (luteal_intensity_spec 4 1).1 (by decide) (by decide)⟩,
   ⟨by decide, (luteal_intensity_spec 2 1).2.1 (by decide)⟩⟩

/-- Claim C6 (violated by the code): at duration 4 the rule-based structure
stage emits section budgets [2, -1, 3] — the main section's budget is the
negative -1, with no clamping guard in the source. -/
theorem planner_emits_negative_budget :
    ((_generate_rule_based shortDurationState).sections.map StructureSection.minutes)
      = [2, -1, 3] := by decide

/-- Claim C5: for every positive duration the rule-based structure stage
emits exactly three sections named breathing, then the intensity-dependent
main flow (gentle_flow / dynamic_flow / moderate_flow), then cool_down,
and the three minute budgets sum exactly to the requested duration. -/
theorem structure_stage_exact (st : BodyState) (hdur : 0 < st.duration_minutes) :
    ((_generate_rule_based st).sections.map StructureSection.sectionName)
      = ["breathing",
         (if st.intensity = .low then "gentle_flow"
          else if st.intensity = .high then "dynamic_flow" else "moderate_flow"),
         "cool_down"]
    ∧ ((_generate_rule_based st).sections.map StructureSection.minutes).sum
        = st.duration_minutes := by
  unfold _generate_rule_based
  refine ⟨rfl, ?_⟩
  simp only [List.map_cons, List.map_nil, List.sum_cons, List.sum_nil]
  split_ifs <;> omega

/-- Witness for C5 at the tier boundary duration 15 (intensity moderate). -/
theorem structure_stage_exact_witness :
    0 < (shortDurationState15).duration_minutes ∧
    (((_generate_rule_based shortDurationState15).sections.map StructureSection.sectionName)
      = ["breathing",
         (if shortDurationState15.intensity = .low then "gentle_flow"
          else if shortDurationState15.intensity = .high then "dynamic_flow"
          else "moderate_flow"),
         "cool_down"]
    ∧ ((_generate_rule_based shortDurationState15).sections.map StructureSection.minutes).sum
        = shortDurationState15.duration_minutes) :=
  ⟨by decide, structure_stage_exact shortDurationState15 (by decide)⟩

lemma phase_of_day_eq_spec (i : Int) (h : 0 ≤ i) :
    phase_of_day i = phaseOfDayIndexSpec i := by
  unfold phase_of_day phaseOfDayIndexSpec
  split_ifs <;> first | rfl | omega

/-- Claim C2: for well-formed dates and a positive cycle length,
`calculate_cycle_phase` returns the elapsed-days modulus as the day index,
always in `[0, cycle_length)`, with the phase given by the fixed absolute
boundaries (0-5 menstrual, 6-13 follicular, 14-16 ovulation, 17+ luteal);
the spec's two concrete examples are included. -/
theorem calculate_cycle_phase_spec :
    (∀ (start asOf : Date) (cl : Int), validDate start → validDate asOf → 0 < cl →
      calculate_cycle_phase start cl asOf
        = .ok (phaseOfDayIndexSpec ((toOrdinalZ asOf - toOrdinalZ start) % cl),
               (toOrdinalZ asOf - toOrdinalZ start) % cl)
      ∧ 0 ≤ (toOrdinalZ asOf - toOrdinalZ start) % cl
      ∧ (toOrdinalZ asOf - toOrdinalZ start) % cl < cl)
    ∧ calculate_cycle_phase ⟨2026, 1, 20⟩ 28 ⟨2026, 2, 2⟩ = .ok (.follicular, 13)
    ∧ (∀ D : Date, calculate_cycle_phase D 28 D = .ok (.menstrual, 0)) := by
  refine ⟨?_, by decide, ?_⟩
  · intro start asOf cl _ _ hcl
    have hne : cl ≠ 0 := by omega
    have hf : Int.fmod (toOrdinalZ asOf - toOrdinalZ start) cl
        = (toOrdinalZ asOf - toOrdinalZ start) % cl :=
      Int.fmod_eq_emod _ (le_of_lt hcl)
    have h0 : 0 ≤ (toOrdinalZ asOf - toOrdinalZ start) % cl := Int.emod_nonneg _ hne
    have h1 : (toOrdinalZ asOf - toOrdinalZ start) % cl < cl := Int.emod_lt_of_pos _ hcl
    refine ⟨?_, h0, h1⟩
    unfold calculate_cycle_phase day_in_cycle_of
    rw [if_neg hne, hf]
    show Except.ok (phase_of_day ((toOrdinalZ asOf - toOrdinalZ start) % cl),
      (toOrdinalZ asOf - toOrdinalZ start) % cl) = _
    rw [phase_of_day_eq_spec _ h0]
  · intro D
    unfold calculate_cycle_phase day_in_cycle_of
    rw [if_neg (by decide : ¬(28 : Int) = 0)]
    rw [sub_self]
    rfl

/-- Witness for C2's universal part at the spec's example dates. -/
theorem calculate_cycle_phase_spec_witness :
    validDate ⟨2026, 1, 20⟩ ∧ validDate ⟨2026, 2, 2⟩ ∧ (0 : Int) < 28 ∧
    (calculate_cycle_phase ⟨2026, 1, 20⟩ 28 ⟨2026, 2, 2⟩
        = .ok (phaseOfDayIndexSpec ((toOrdinalZ ⟨2026, 2, 2⟩ - toOrdinalZ ⟨2026, 1, 20⟩) % 28),
               (toOrdinalZ ⟨2026, 2, 2⟩ - toOrdinalZ ⟨2026, 1, 20⟩) % 28)
      ∧ 0 ≤ (toOrdinalZ ⟨2026, 2, 2⟩ - toOrdinalZ ⟨2026, 1, 20⟩) % 28
      ∧ (toOrdinalZ ⟨2026, 2, 2⟩ - toOrdinalZ ⟨2026, 1, 20⟩) % 28 < 28) :=
  ⟨by decide, by decide, by decide,
    calculate_cycle_phase_spec.1 ⟨2026, 1, 20⟩ ⟨2026, 2, 2⟩ 28 (by decide) (by decide) (by decide)⟩

/-- Claim C8: with no candidate tagged restorative / gentle_stretch /
forward_fold, the cool-down selection is exactly one synthetic pick sized
to the full minute budget; with matching candidates it returns at most 3
picks, all drawn from the matching candidates. -/
theorem cool_down_selection_spec (poses : List Pose) (minutes : Int) :
    ((∀ p ∈ poses, ∀ t ∈ p.types, t ∉ cool_down_types) →
      _select_cool_down_poses poses minutes
        = [{ pose := "child_pose", duration := toString minutes ++ " min",
             notes := "Final resting pose" }])
    ∧ ((∃ p ∈ poses, ∃ t ∈ p.types, t ∈ cool_down_types) →
      (_select_cool_down_poses poses minutes).length ≤ 3
      ∧ ∀ pk ∈ _select_cool_down_poses poses minutes,
          ∃ p ∈ poses, (∃ t ∈ p.types, t ∈ cool_down_types) ∧ pk.pose = p.name) := by
  constructor
  · intro h
    have hfil : poses.filter (fun p => p.types.any (fun pt => decide (pt ∈ cool_down_types))) = [] := by
      rw [List.filter_eq_nil_iff]
      intro p hp
      simp only [List.any_eq_true, decide_eq_true_eq, not_exists]
      intro t hconj
      exact h p hp t hconj.1 hconj.2
    simp only [_select_cool_down_poses]
    rw [hfil]
    rfl
  · rintro ⟨p, hp, t, ht, htm⟩
    have hpfil : p ∈ poses.filter (fun q => q.types.any (fun pt => decide (pt ∈ cool_down_types))) := by
      rw [List.mem_filter]
      refine ⟨hp, ?_⟩
      simp only [List.any_eq_true, decide_eq_true_eq]
      exact ⟨t, ht, htm⟩
    have hLne : poses.filter (fun q => q.types.any (fun pt => decide (pt ∈ cool_down_types))) ≠ [] :=
      List.ne_nil_of_mem hpfil
    simp only [_select_cool_down_poses]
    split
    · rename_i hcond
      exfalso
      rw [List.isEmpty_iff, List.map_eq_nil_iff, List.take_eq_nil_iff] at hcond
      rcases hcond with h3 | hL
      · exact absurd h3 (by decide)
      · exact hLne hL
    · constructor
      · rw [List.length_map, List.length_take]
        omega
      · intro pk hpk
        rw [List.mem_map] at hpk
        obtain ⟨q, hq, hqe⟩ := hpk
        have hqfil := List.take_subset 3 _ hq
        rw [List.mem_filter] at hqfil
        obtain ⟨hqp, hqpred⟩ := hqfil
        simp only [List.any_eq_true, decide_eq_true_eq] at hqpred
        exact ⟨q, hqp, hqpred, by rw [← hqe]⟩

/-- Witness for C8: one matching and one non-matching candidate. -/
theorem cool_down_selection_spec_witness :
    (∃ p ∈ [(⟨"pigeon", ["hip_opener", "forward_fold"], "2 min"⟩ : Pose)],
      ∃ t ∈ p.types, t ∈ cool_down_types)
    ∧ ((_select_cool_down_poses [⟨"pigeon", ["hip_opener", "forward_fold"], "2 min"⟩] 5).length ≤ 3
      ∧ ∀ pk ∈ _select_cool_down_poses [⟨"pigeon", ["hip_opener", "forward_fold"], "2 min"⟩] 5,
          ∃ p ∈ [(⟨"pigeon", ["hip_opener", "forward_fold"], "2 min"⟩ : Pose)],
            (∃ t ∈ p.types, t ∈ cool_down_types) ∧ pk.pose = p.name) :=
  ⟨by decide,
    (cool_down_selection_spec [⟨"pigeon", ["hip_opener", "forward_fold"], "2 min"⟩] 5).2 (by decide)⟩

lemma process_ok (u : UserInput) (lastDate today : Date)
    (hd : u.last_period_date = some lastDate)
    (hcl : u.cycle_length.getD 28 ≠ 0) :
    process u today = .ok (processResult u lastDate today) := by
  unfold process calculate_cycle_phase
  rw [hd]
  simp only [if_neg hcl]
  rfl

lemma mem_all_types (t : PoseType) : t ∈ SafetyRules.all_types := by
  cases t <;> decide

lemma mem_forbidden_iff (phase : CyclePhase) (energy pain : Int) (t : PoseType) :
    t ∈ SafetyRules.get_forbidden_pose_types phase energy pain ↔
      t ∉ SafetyRules.get_allowed_pose_types phase energy pain := by
  unfold SafetyRules.get_forbidden_pose_types
  rw [List.mem_filter]
  simp [mem_all_types]

/-- Claim C7 counterexample: on an input with energy 6 (outside 1-5) but a
present `last_period_date`, `process` succeeds instead of raising a
validation error — out-of-range numerics are not validated. -/
theorem process_accepts_out_of_range_energy :
    (process invalidEnergyInput ⟨2026, 2, 2⟩).isOk = true := by decide

/-- Claim C7 amended: `process` raises its validation error exactly when
`last_period_date` is missing; with a present date (and nonzero cycle
length, which otherwise raises `ZeroDivisionError`, not a validation error),
`process` succeeds regardless of energy, pain or duration values. -/
theorem process_validation_amended (u : UserInput) (today : Date) :
    (u.last_period_date = none → process u today = .error "last_period_date is required")
    ∧ (∀ d, u.last_period_date = some d → u.cycle_length.getD 28 ≠ 0 →
        (process u today).isOk = true) := by
  constructor
  · intro h
    unfold process
    rw [h]
  · intro d hd hcl
    rw [process_ok u d today hd hcl]
    rfl

/-- Witness for C7's amended claim at the out-of-range-energy input. -/
theorem process_validation_amended_witness :
    invalidEnergyInput.last_period_date = some ⟨2026, 1, 20⟩
    ∧ invalidEnergyInput.cycle_length.getD 28 ≠ 0
    ∧ (process invalidEnergyInput ⟨2026, 2, 2⟩).isOk = true :=
  ⟨rfl, by decide,
    (process_validation_amended invalidEnergyInput ⟨2026, 2, 2⟩).2 ⟨2026, 1, 20⟩ rfl (by decide)⟩

/-- Claim C1 counterexample: on the valid input with training focus
`["twist"]` (follicular phase, energy 3, pain 1), the returned `BodyState`
violates `allowed ∪ forbidden = universe`: the focus narrows the allowed
set to `[twist]` while forbidden stays the complement of the pre-focus set. -/
theorem process_invariant_counterexample :
    ¬ exceptInvariant (process focusNarrowInput ⟨2026, 1, 28⟩) := by decide


/-- Claim C1 amended: for every valid input, the allowed and forbidden sets
of the returned `BodyState` are disjoint; and when the resolved training
focus is empty (so no focus narrowing occurs) their union is the full
17-tag universe. -/
theorem process_invariant_amended (u : UserInput) (today lastDate : Date) (st : BodyState)
    (hd : u.last_period_date = some lastDate)
    (he : 1 ≤ u.energy.getD 3 ∧ u.energy.getD 3 ≤ 5)
    (hp : 1 ≤ u.pain.getD 1 ∧ u.pain.getD 1 ≤ 5)
    (hdur : 0 < u.duration.getD 20)
    (hcl : 0 < u.cycle_length.getD 28)
    (hok : process u today = .ok st) :
    (∀ t : PoseType, ¬(t ∈ st.allowed_pose_types ∧ t ∈ st.forbidden_pose_types))
    ∧ ((u.training_focus.getD []).filterMap focusOfString = [] →
        ∀ t : PoseType, t ∈ st.allowed_pose_types ∨ t ∈ st.forbidden_pose_types) := by
  rw [process_ok u lastDate today hd (by omega)] at hok
  have hst : st = processResult u lastDate today := (Except.ok.inj hok).symm
  subst hst
  simp only [processResult]
  constructor
  · intro t ht
    obtain ⟨hta, htf⟩ := ht
    have h1 : t ∉ SafetyRules.get_allowed_pose_types
        (phase_of_day (day_in_cycle_of lastDate (u.cycle_length.getD 28) today))
        (u.energy.getD 3) (u.pain.getD 1) :=
      (mem_forbidden_iff _ _ _ t).mp htf
    apply h1
    revert hta
    split_ifs <;> intro hta
    · exact hta
    · exact hta
    · exact (List.mem_filter.mp hta).1
  · intro hfe t
    rw [hfe]
    by_cases hmem : t ∈ SafetyRules.get_allowed_pose_types
        (phase_of_day (day_in_cycle_of lastDate (u.cycle_length.getD 28) today))
        (u.energy.getD 3) (u.pain.getD 1)
    · left
      simpa using hmem
    · right
      exact (mem_forbidden_iff _ _ _ t).mpr hmem

/-- Witness for C1's amended claim on a valid empty-focus input. -/
theorem process_invariant_amended_witness :
    emptyFocusInput.last_period_date = some ⟨2026, 1, 20⟩
    ∧ (1 ≤ emptyFocusInput.energy.getD 3 ∧ emptyFocusInput.energy.getD 3 ≤ 5)
    ∧ (1 ≤ emptyFocusInput.pain.getD 1 ∧ emptyFocusInput.pain.getD 1 ≤ 5)
    ∧ 0 < emptyFocusInput.duration.getD 20
    ∧ 0 < emptyFocusInput.cycle_length.getD 28
    ∧ process emptyFocusInput ⟨2026, 2, 2⟩
        = .ok (processResult emptyFocusInput ⟨2026, 1, 20⟩ ⟨2026, 2, 2⟩)
    ∧ ((∀ t : PoseType,
          ¬(t ∈ (processResult emptyFocusInput ⟨2026, 1, 20⟩ ⟨2026, 2, 2⟩).allowed_pose_types
            ∧ t ∈ (processResult emptyFocusInput ⟨2026, 1, 20⟩ ⟨2026, 2, 2⟩).forbidden_pose_types))
      ∧ ((emptyFocusInput.training_focus.getD []).filterMap focusOfString = [] →
          ∀ t : PoseType,
            t ∈ (processResult emptyFocusInput ⟨2026, 1, 20⟩ ⟨2026, 2, 2⟩).allowed_pose_types
            ∨ t ∈ (processResult emptyFocusInput ⟨2026, 1, 20⟩ ⟨2026, 2, 2⟩).forbidden_pose_types)) :=
  ⟨rfl, by decide, by decide, by decide, by decide, by decide,
    process_invariant_amended emptyFocusInput ⟨2026, 2, 2⟩ ⟨2026, 1, 20⟩
      (processResult emptyFocusInput ⟨2026, 1, 20⟩ ⟨2026, 2, 2⟩)
      rfl (by decide) (by decide) (by decide) (by decide) (by decide)⟩

/-- Claim C4 counterexample: on the valid input with training focus
`["breathing"]` (follicular phase, energy 3, pain 1), the intersection of
the focus with the derived allowed set is non-empty (`breathing` is
allowed), yet the final allowed set is the full pre-focus allowed set —
which also contains `twist` — not that singleton intersection: the engine
drops `breathing` from the focus (it is outside `valid_focus`) and skips
narrowing entirely. -/
theorem process_focus_claim_counterexample :
    allowedOfResult (process breathingFocusInput ⟨2026, 1, 28⟩)
      = SafetyRules.get_allowed_pose_types .follicular 3 1
    ∧ PoseType.breathing ∈ SafetyRules.get_allowed_pose_types .follicular 3 1
    ∧ PoseType.twist ∈ allowedOfResult (process breathingFocusInput ⟨2026, 1, 28⟩) := by
  decide

/-- Claim C4 amended: on a valid input whose training focus is non-empty
after the engine's `valid_focus` filter (only seated, forward_fold,
backbend, twist, side_bend, balance, inversion survive; other category
tags are silently dropped), the final allowed set is the pre-focus allowed
set when the intersection with that resolved focus is empty, and is
exactly that intersection otherwise. -/
theorem process_focus_narrowing (u : UserInput) (today lastDate : Date) (st : BodyState)
    (hd : u.last_period_date = some lastDate)
    (he : 1 ≤ u.energy.getD 3 ∧ u.energy.getD 3 ≤ 5)
    (hp : 1 ≤ u.pain.getD 1 ∧ u.pain.getD 1 ≤ 5)
    (hdur : 0 < u.duration.getD 20)
    (hcl : 0 < u.cycle_length.getD 28)
    (hfoc : (u.training_focus.getD []).filterMap focusOfString ≠ [])
    (hok : process u today = .ok st) :
    ((SafetyRules.get_allowed_pose_types st.cycle_phase st.energy_level st.pain_level).filter
        (fun t => decide (t ∈ st.training_focus)) = [] →
      st.allowed_pose_types
        = SafetyRules.get_allowed_pose_types st.cycle_phase st.energy_level st.pain_level)
    ∧ ((SafetyRules.get_allowed_pose_types st.cycle_phase st.energy_level st.pain_level).filter
        (fun t => decide (t ∈ st.training_focus)) ≠ [] →
      st.allowed_pose_types
        = (SafetyRules.get_allowed_pose_types st.cycle_phase st.energy_level st.pain_level).filter
          (fun t => decide (t ∈ st.training_focus))) := by
  rw [process_ok u lastDate today hd (by omega)] at hok
  have hst : st = processResult u lastDate today := (Except.ok.inj hok).symm
  subst hst
  simp only [processResult]
  have htf : ¬ ((u.training_focus.getD []).filterMap focusOfString).isEmpty = true := by
    rw [List.isEmpty_iff]
    exact hfoc
  rw [if_neg htf]
  constructor
  · intro hfe
    rw [hfe]
    simp
  · intro hne2
    rw [if_neg (by rw [List.isEmpty_iff]; exact hne2)]

/-- Witness for C4 on the focus-narrowing input (focus `["twist"]`,
follicular phase, energy 3, pain 1: the intersection is non-empty). -/
theorem process_focus_narrowing_witness :
    focusNarrowInput.last_period_date = some ⟨2026, 1, 20⟩
    ∧ (1 ≤ focusNarrowInput.energy.getD 3 ∧ focusNarrowInput.energy.getD 3 ≤ 5)
    ∧ (1 ≤ focusNarrowInput.pain.getD 1 ∧ focusNarrowInput.pain.getD 1 ≤ 5)
    ∧ 0 < focusNarrowInput.duration.getD 20
    ∧ 0 < focusNarrowInput.cycle_length.getD 28
    ∧ (focusNarrowInput.training_focus.getD []).filterMap focusOfString ≠ []
    ∧ process focusNarrowInput ⟨2026, 1, 28⟩
        = .ok (processResult focusNarrowInput ⟨2026, 1, 20⟩ ⟨2026, 1, 28⟩)
    ∧ (((SafetyRules.get_allowed_pose_types
          (processResult focusNarrowInput ⟨2026, 1, 20⟩ ⟨2026, 1, 28⟩).cycle_phase
          (processResult focusNarrowInput ⟨2026, 1, 20⟩ ⟨2026, 1, 28⟩).energy_level
          (processResult focusNarrowInput ⟨2026, 1, 20⟩ ⟨2026, 1, 28⟩).pain_level).filter
            (fun t => decide (t ∈ (processResult focusNarrowInput ⟨2026, 1, 20⟩ ⟨2026, 1, 28⟩).training_focus)) = [] →
        (processResult focusNarrowInput ⟨2026, 1, 20⟩ ⟨2026, 1, 28⟩).allowed_pose_types
          = SafetyRules.get_allowed_pose_types
              (processResult focusNarrowInput ⟨2026, 1, 20⟩ ⟨2026, 1, 28⟩).cycle_phase
              (processResult focusNarrowInput ⟨2026, 1, 20⟩ ⟨2026, 1, 28⟩).energy_level
              (processResult focusNarrowInput ⟨2026, 1, 20⟩ ⟨2026, 1, 28⟩).pain_level)
      ∧ ((SafetyRules.get_allowed_pose_types
          (processResult focusNarrowInput ⟨2026, 1, 20⟩ ⟨2026, 1, 28⟩).cycle_phase
          (processResult focusNarrowInput ⟨2026, 1, 20⟩ ⟨2026, 1, 28⟩).energy_level
          (processResult focusNarrowInput ⟨2026, 1, 20⟩ ⟨2026, 1, 28⟩).pain_level).filter
            (fun t => decide (t ∈ (processResult focusNarrowInput ⟨2026, 1, 20⟩ ⟨2026, 1, 28⟩).training_focus)) ≠ [] →
        (processResult focusNarrowInput ⟨2026, 1, 20⟩ ⟨2026, 1, 28⟩).allowed_pose_types
          = (SafetyRules.get_allowed_pose_types
              (processResult focusNarrowInput ⟨2026, 1, 20⟩ ⟨2026, 1, 28⟩).cycle_phase
              (processResult focusNarrowInput ⟨2026, 1, 20⟩ ⟨2026, 1, 28⟩).energy_level
              (processResult focusNarrowInput ⟨2026, 1, 20⟩ ⟨2026, 1, 28⟩).pain_level).filter
                (fun t => decide (t ∈ (processResult focusNarrowInput ⟨2026, 1, 20⟩ ⟨2026, 1, 28⟩).training_focus)))) :=
  ⟨rfl, by decide, by decide, by decide, by decide, by decide, by decide,
    process_focus_narrowing focusNarrowInput ⟨2026, 1, 28⟩ ⟨2026, 1, 20⟩
      (processResult focusNarrowInput ⟨2026, 1, 20⟩ ⟨2026, 1, 28⟩)
      rfl (by decide) (by decide) (by decide) (by decide) (by decide) (by decide)⟩
